import Mathlib

/-!
Shallow embedding of the JSON-backed per-user document store of
`src/bot.py` (a Telegram text-saver bot), together with theorems
checking the natural-language specification against the code.

Modelling conventions:
* A JSON object field that may be absent from the on-disk document is an
  `Option`; `none` models the key being absent (JSON `null` is conflated
  with absence, which no claim here distinguishes).
* Timestamps (`datetime.now(timezone.utc).isoformat()`) are passed in as
  an explicit `now : String` parameter, keeping every definition pure.
* A handler that replies with an error message and performs no
  `save_user_data` call is modelled as returning `none` / `.error`:
  the stored record is left untouched in that case.
* Callback indices are parsed with Python `int(...)` and may be
  negative, so operation indices are `Int`.
-/

namespace Bot

/-- Current schema version (`SCHEMA_VERSION = 2` in the source). -/
def SCHEMA_VERSION : Int := 2

/-- One section dictionary, as created by `add_text` and mutated by the
lifecycle handlers.  `favorite`, `updated_at`, `deleted_at` may be absent
on old (pre-migration) data, hence `Option`. -/
structure Section where
  title : String
  image : Option String
  text : String
  favorite : Option Bool
  updated_at : Option String
  deleted_at : Option String
deriving Repr, DecidableEq

/-- The `settings` dictionary of a record; the `theme` key may be absent. -/
structure Settings where
  theme : Option String
deriving Repr, DecidableEq

/-- One per-user data file (`data/<uid>.json`).  `schema_version`,
`trash` and `settings` keys may be absent on pre-migration files. -/
structure Record where
  schema_version : Option Int
  sections : List Section
  trash : Option (List Section)
  settings : Option Settings
deriving Repr, DecidableEq

/-- `default_user_structure()` from the source. -/
def default_user_structure : Record :=
  { schema_version := some SCHEMA_VERSION
    sections := []
    trash := some []
    settings := some { theme := some "light" } }

/-- The decodable branch of `migrate_user_file` (source lines 150-169):
`ver = data.get("schema_version", 1)`; if `ver < 2`, `setdefault` the
`trash` and `settings` keys, default `updated_at`/`favorite` on every
section, and stamp `schema_version = 2`.  Returns the migrated record
and the `changed` flag (which decides whether the file is re-persisted). -/
def migrate_user_file (now : String) (data : Record) : Record × Bool :=
  let ver := data.schema_version.getD 1
  if ver < 2 then
    ({ schema_version := some 2
       sections := data.sections.map fun s =>
         { s with updated_at := some (s.updated_at.getD now)
                  favorite := some (s.favorite.getD false) }
       trash := some (data.trash.getD [])
       settings := some (data.settings.getD { theme := some "light" }) }, true)
  else
    (data, false)

/-- Python list indexing semantics for `lst[idx]` with `idx : Int`:
a negative index counts from the end of the list; a resolved position is
returned, `none` standing for a raised `IndexError`. -/
def pyIndex (n : Nat) (i : Int) : Option Nat :=
  if 0 ≤ i then
    if i < (n : Int) then some i.toNat else none
  else
    if 0 ≤ i + (n : Int) then some (i + (n : Int)).toNat else none

/-- Python `lst.pop(j)` at a nonnegative position: the removed element and
the remaining list (`none` when `j` is out of range). -/
def listPop (l : List α) (j : Nat) : Option (α × List α) :=
  match l.get? j with
  | some x => some (x, l.eraseIdx j)
  | none => none

/-- `add_text` (source lines 488-504): appends a freshly created section
with `favorite = False`, `updated_at = now` and no `deleted_at` key. -/
def add_text (title : String) (image : Option String)
    (text_content now : String) (ud : Record) : Record :=
  { ud with sections := ud.sections ++
      [{ title := title, image := image, text := text_content
         favorite := some false, updated_at := some now, deleted_at := none }] }

/-- The `togglefav_{idx}` branch of `callback_router` (source lines
350-360): bounds-check `0 <= idx < len(ud["sections"])`, flip
`favorite` (absent treated as `False`), refresh `updated_at`, save.
`none` = "Invalid section" reply, nothing saved. -/
def togglefav_callback (ud : Record) (idx : Int) (now : String) : Option Record :=
  if 0 ≤ idx ∧ idx < (ud.sections.length : Int) then
    match ud.sections.get? idx.toNat with
    | some s =>
        let s2 : Section :=
          { s with favorite := some (!(s.favorite.getD false))
                   updated_at := some now }
        some { ud with sections := ud.sections.set idx.toNat s2 }
    | none => none
  else none

/-- The `delete_{idx}` branch of `inline_edit_delete_router` (source lines
588-599): bounds-check against `sections`, pop the section, stamp
`deleted_at`, append it to `trash` (created by `setdefault` if absent),
save.  `none` = "Invalid section" reply, nothing saved. -/
def delete_callback (ud : Record) (idx : Int) (now : String) : Option Record :=
  if 0 ≤ idx ∧ idx < (ud.sections.length : Int) then
    match listPop ud.sections idx.toNat with
    | some (item, rest) =>
        some { ud with sections := rest
                       trash := some ((ud.trash.getD [])
                         ++ [{ item with deleted_at := some now }]) }
    | none => none
  else none

/-- The `restore_{idx}` branch of `callback_router` (source lines
363-374): bounds-check against `ud.get("trash", [])`, pop the trash
entry, refresh `updated_at`, append it to `sections`, save.
`none` = "Invalid item" reply, nothing saved. -/
def restore_callback (ud : Record) (idx : Int) (now : String) : Option Record :=
  if 0 ≤ idx ∧ idx < ((ud.trash.getD []).length : Int) then
    match listPop (ud.trash.getD []) idx.toNat with
    | some (item, rest) =>
        some { ud with trash := some rest
                       sections := ud.sections
                         ++ [{ item with updated_at := some now }] }
    | none => none
  else none

/-- The `purge_{idx}` branch of `callback_router` (source lines 375-384):
bounds-check against `ud.get("trash", [])`, pop the trash entry, save.
`none` = "Invalid item" reply, nothing saved. -/
def purge_callback (ud : Record) (idx : Int) : Option Record :=
  if 0 ≤ idx ∧ idx < ((ud.trash.getD []).length : Int) then
    match listPop (ud.trash.getD []) idx.toNat with
    | some (_item, rest) => some { ud with trash := some rest }
    | none => none
  else none

/-- Which field an `edit_field_{...}` callback selected. -/
inductive EditField where
  | title
  | image
  | text
deriving Repr, DecidableEq

/-- `edit_apply_message` (source lines 619-646): no explicit bounds
check — the assignment `ud["sections"][idx][...] = val` runs inside
`try`, so Python list-index semantics apply (`pyIndex`): an out-of-range
index raises `IndexError`, which is caught before `save_user_data`
(modelled `none`), but a negative in-range index resolves from the end
of the list and the mutated record IS saved. -/
def edit_apply_message (ud : Record) (idx : Int) (which : EditField)
    (val now : String) : Option Record :=
  match pyIndex ud.sections.length idx with
  | some j =>
      match ud.sections.get? j with
      | some s =>
          let s2 := match which with
            | .title => { s with title := val }
            | .image => { s with image :=
                if val.toLower = "skip" then none else some val }
            | .text => { s with text := val }
          let s3 : Section := { s2 with updated_at := some now }
          some { ud with sections := ud.sections.set j s3 }
      | none => none
  | none => none

/-- An uploaded restore payload after a successful `json.load`: each of
the four top-level keys may be present or absent. -/
structure Payload where
  sections : Option (List Section)
  schema_version : Option Int
  trash : Option (List Section)
  settings : Option Settings
deriving Repr, DecidableEq

/-- `restore_receive_file` (source lines 731-752), given the currently
stored record and a decoded payload: if the `sections` key is missing,
`ValueError("Invalid backup format.")` is raised and caught — the reply
is a failure and the stored record is untouched; otherwise the missing
`schema_version` / `trash` / `settings` keys are `setdefault`-filled and
the result replaces the stored record via `save_user_data`.  Returns
(handler outcome, stored record after the call). -/
def restore_receive_file (stored : Record) (p : Payload) :
    Except String Record × Record :=
  match p.sections with
  | none => (.error "Invalid backup format.", stored)
  | some secs =>
      let data : Record :=
        { schema_version := some (p.schema_version.getD SCHEMA_VERSION)
          sections := secs
          trash := some (p.trash.getD [])
          settings := some (p.settings.getD { theme := some "light" }) }
      (.ok data, data)

/-- One account entry of the registry file `users.json`; every key may be
absent (`toggle_theme_callback` can create an entry holding only
`settings`). -/
structure UserAccount where
  password : Option String
  logged_in : Option Bool
  settings : Option Settings
deriving Repr, DecidableEq

/-- The whole persistent state the handlers touch: the registry file
`users.json` (keyed by user id) and the per-user data files
`data/<uid>.json`. -/
structure SysState where
  users : Int → Option UserAccount
  dataFiles : Int → Option Record

/-- `toggle_theme_callback` (source lines 794-803): load `users.json`,
take (or create) the caller's entry, `setdefault` its `settings`, flip
the theme (absent treated as `"light"`), write the entry back and save
`users.json`.  The per-user data files are not touched. -/
def toggle_theme_callback (st : SysState) (user_id : Int) : SysState :=
  let u := (st.users user_id).getD
    { password := none, logged_in := none, settings := none }
  let settings := u.settings.getD { theme := some "light" }
  let cur := settings.theme.getD "light"
  let nw := if cur = "light" then "dark" else "light"
  let u2 := { u with settings := some { settings with theme := some nw } }
  { st with users := fun k => if k = user_id then some u2 else st.users k }

/-- A concrete section used to run the operations on concrete inputs. -/
def sampleSection : Section :=
  { title := "A", image := none, text := "hello", favorite := some false
    updated_at := some "T0", deleted_at := none }

/-- A concrete one-section record used to run the operations on concrete
inputs. -/
def sampleRecord : Record :=
  { schema_version := some 2, sections := [sampleSection]
    trash := some [], settings := some { theme := some "light" } }

/-- A section tagged with an object identity.  Python dict objects have
identity: `add_text` creates a fresh dict, while the soft-delete /
restore / purge handlers `pop` and `append` the same object between the
two lists.  `oid` is a model-level tag mirroring that identity; no
operation reads it. -/
structure TSection where
  oid : Nat
  sec : Section
deriving Repr, DecidableEq

/-- The identity-tracking view of a record: the two lists the lifecycle
operations move sections between. -/
structure TRecord where
  sections : List TSection
  trash : List TSection
deriving Repr, DecidableEq

/-- One lifecycle call together with its caller-supplied arguments. -/
inductive LOp where
  | add (title : String) (image : Option String) (text now : String)
  | softDelete (idx : Int) (now : String)
  | restore (idx : Int) (now : String)
  | purge (idx : Int)
deriving Repr

/-- Identity-tracking `add_text`: append a freshly created section
object (fresh id `fresh`). -/
def t_add (fresh : Nat) (title : String) (image : Option String)
    (text_content now : String) (r : TRecord) : TRecord :=
  { r with sections := r.sections ++
      [⟨fresh, { title := title, image := image, text := text_content
                 favorite := some false, updated_at := some now
                 deleted_at := none }⟩] }

/-- Identity-tracking `delete_{idx}`: same pop/stamp/append as
`delete_callback`; an invalid index leaves the record unchanged. -/
def t_softDelete (r : TRecord) (idx : Int) (now : String) : TRecord :=
  if 0 ≤ idx ∧ idx < (r.sections.length : Int) then
    match listPop r.sections idx.toNat with
    | some (item, rest) =>
        { sections := rest
          trash := r.trash ++ [⟨item.oid, { item.sec with deleted_at := some now }⟩] }
    | none => r
  else r

/-- Identity-tracking `restore_{idx}`. -/
def t_restore (r : TRecord) (idx : Int) (now : String) : TRecord :=
  if 0 ≤ idx ∧ idx < (r.trash.length : Int) then
    match listPop r.trash idx.toNat with
    | some (item, rest) =>
        { trash := rest
          sections := r.sections ++ [⟨item.oid, { item.sec with updated_at := some now }⟩] }
    | none => r
  else r

/-- Identity-tracking `purge_{idx}`. -/
def t_purge (r : TRecord) (idx : Int) : TRecord :=
  if 0 ≤ idx ∧ idx < (r.trash.length : Int) then
    match listPop r.trash idx.toNat with
    | some (_item, rest) => { r with trash := rest }
    | none => r
  else r

/-- One step of the instrumented lifecycle state machine; the state is
the record together with the next fresh object id. -/
def t_step (st : TRecord × Nat) (op : LOp) : TRecord × Nat :=
  match op with
  | .add title image text now => (t_add st.2 title image text now st.1, st.2 + 1)
  | .softDelete idx now => (t_softDelete st.1 idx now, st.2)
  | .restore idx now => (t_restore st.1 idx now, st.2)
  | .purge idx => (t_purge st.1 idx, st.2)

/-- Run a whole sequence of lifecycle calls. -/
def t_run (st : TRecord × Nat) (ops : List LOp) : TRecord × Nat :=
  ops.foldl t_step st

/-- All object ids present in a tracked record. -/
def oids (r : TRecord) : List Nat :=
  (r.sections ++ r.trash).map TSection.oid

/-- Well-formedness of an instrumented state: ids are pairwise distinct
across `sections ++ trash` and all lie below the fresh counter. -/
def WF (st : TRecord × Nat) : Prop :=
  (oids st.1).Nodup ∧ ∀ n ∈ oids st.1, n < st.2

/-- No section object sits in `sections` and `trash` at the same time. -/
def oidsDisjoint (r : TRecord) : Prop :=
  ∀ a ∈ r.sections, ∀ b ∈ r.trash, a.oid ≠ b.oid

/-- The data directory as seen through `load_user_data` /
`save_user_data`, keyed by user id (`load_user_data` auto-creates a
default record, so lookups are total). -/
def Store : Type := Int → Record

/-- One in-flight handler doing a read-modify-write on one user's file:
its key, its in-memory mutation (one of the lifecycle operations), the
value loaded so far, and whether it has written back. -/
structure Task where
  key : Int
  mutate : Record → Record
  readv : Option Record
  done : Bool

/-- One scheduler step of task `t`: an unstarted task performs its
`load_user_data` (reads the current file), a started one performs its
`save_user_data` (writes `mutate` of the value it read).  The source
holds no lock across the load/save pair, so nothing stops other tasks
from being scheduled in between. -/
def taskStep (store : Store) (t : Task) : Store × Task :=
  if t.done then (store, t)
  else
    match t.readv with
    | none => (store, { t with readv := some (store t.key) })
    | some v =>
        (fun k => if k = t.key then t.mutate v else store k,
         { t with done := true })

/-- Run a schedule: at each tick the named task takes one step (an index
with no task is a skipped tick). -/
def runSched (store : Store) (tasks : List Task) (sched : List Nat) :
    Store × List Task :=
  sched.foldl
    (fun st i =>
      match st.2.get? i with
      | some t =>
          let p := taskStep st.1 t
          (p.1, st.2.set i p.2)
      | none => st)
    (store, tasks)

/-- What a stored file can hold: a JSON-decodable record, or bytes on
which `json.load` raises. -/
inductive FileContent where
  | valid (r : Record)
  | corrupt (raw : String)
deriving Repr, DecidableEq

/-- A directory: path → file content (`none` = no such file). -/
def FS : Type := String → Option FileContent

/-- `safe_write_json path obj`: after the atomic temp-write + move, the
path holds the new content. -/
def fsWrite (fs : FS) (p : String) (c : FileContent) : FS :=
  fun q => if q = p then some c else fs q

/-- `shutil.move src dst`. -/
def fsMove (fs : FS) (src dst : String) : FS :=
  fun q => if q = dst then fs src else if q = src then none else fs q

/-- `os.remove p`. -/
def fsRemove (fs : FS) (p : String) : FS :=
  fun q => if q = p then none else fs q

/-- `user_data_path` (source line 103): `data/<uid>.json`. -/
def user_data_path (uid : String) : String :=
  "data/" ++ uid ++ ".json"

/-- `migrate_user_file` as a filesystem operation (source lines 138-169),
including the except-branch: when `json.load` fails, the file is moved
aside to `<path>.corrupt.bak` and the path is re-created with a default
record; when it decodes, the pure migration runs and re-persists only if
it changed something.  The function handles the decode failure itself
and returns normally either way.  (It is only invoked on existing paths
— `ensure_user_data` guards with `os.path.exists` — so the `none`
branch is unreachable.) -/
def migrate_user_file_fs (now : String) (fs : FS) (path : String) : FS :=
  match fs path with
  | some (.corrupt _) =>
      fsWrite (fsMove fs path (path ++ ".corrupt.bak")) path
        (.valid default_user_structure)
  | some (.valid data) =>
      let md := migrate_user_file now data
      if md.2 then fsWrite fs path (.valid md.1) else fs
  | none => fs

/-- The filesystem effect of the `admin_delete_{uid}` branch of
`callback_router` (source lines 422-435): `os.remove` of the user's data
file.  This is the only file-deleting statement in the source. -/
def admin_delete_user (fs : FS) (uid : String) : FS :=
  fsRemove fs (user_data_path uid)

/-- `s` ends with `suffix`, as a test on the character lists. -/
def strEndsWith (s sfx : String) : Prop :=
  List.IsSuffix sfx.data s.data

/-- A concrete one-file directory whose single file holds undecodable
bytes. -/
def corruptFS : FS :=
  fun q => if q = "data/1.json" then some (FileContent.corrupt "oops") else none

/-- A concrete pre-migration (v1) record: no `schema_version`, `trash`
or `settings` key, and one section lacking `favorite`/`updated_at`. -/
def sampleV1Record : Record :=
  { schema_version := none
    sections := [{ title := "A", image := none, text := "hello"
                   favorite := none, updated_at := none, deleted_at := none }]
    trash := none
    settings := none }

/-- A concrete record with an empty `sections` list and one trashed
section. -/
def sampleTrashRecord : Record :=
  { schema_version := some 2
    sections := []
    trash := some [{ title := "A", image := none, text := "hello"
                     favorite := some false, updated_at := some "T0"
                     deleted_at := some "D0" }]
    settings := some { theme := some "light" } }

/-- A concrete registry account. -/
def sampleAccount : UserAccount :=
  { password := some "pw", logged_in := some true
    settings := some { theme := some "light" } }

/-- A concrete system state with one registered user owning one data
file. -/
def sampleSysState : SysState :=
  { users := fun k => if k = 7 then some sampleAccount else none
    dataFiles := fun k => if k = 7 then some default_user_structure else none }

end Bot

namespace Bot

/-- **C6** Migration is idempotent: re-migrating an already-migrated
record (at any later time `now2`) returns it unchanged with
`changed = false`, so no re-persist is triggered. -/
theorem migrate_idempotent (now1 now2 : String) (r : Record) :
    migrate_user_file now2 (migrate_user_file now1 r).1
      = ((migrate_user_file now1 r).1, false) := by
  unfold migrate_user_file
  by_cases h : r.schema_version.getD 1 < 2
  · simp [h]
  · simp [h]

/-- **C5 (amended)** For every record whose `schema_version` is absent or
less than 2, migration stamps `schema_version = 2`, makes the `trash` key
present (empty list if it was absent), makes the `settings` key present —
with `theme = "light"` only when the `settings` key itself was absent; a
pre-existing `settings` object is kept as-is, even if it has no `theme` —
and gives every section `favorite` (defaulting to `false`) and a non-`none`
`updated_at` (defaulting to `now`), preserving all pre-existing fields. -/
theorem migrate_v1_to_v2 (now : String) (r : Record)
    (h : r.schema_version.getD 1 < 2) :
    (migrate_user_file now r).1.schema_version = some 2 ∧
    (migrate_user_file now r).1.trash = some (r.trash.getD []) ∧
    (migrate_user_file now r).1.settings
      = some (r.settings.getD { theme := some "light" }) ∧
    (migrate_user_file now r).1.sections = r.sections.map (fun s =>
      { s with updated_at := some (s.updated_at.getD now)
               favorite := some (s.favorite.getD false) }) ∧
    (migrate_user_file now r).2 = true := by
  unfold migrate_user_file
  simp [h]

/-- Witness for `migrate_v1_to_v2` at a concrete v1 record with one bare
section. -/
theorem migrate_v1_to_v2_witness :
    (migrate_user_file "T0" sampleV1Record).1.schema_version = some 2 ∧
    (migrate_user_file "T0" sampleV1Record).1.trash
      = some (sampleV1Record.trash.getD []) ∧
    (migrate_user_file "T0" sampleV1Record).1.settings
      = some (sampleV1Record.settings.getD { theme := some "light" }) ∧
    (migrate_user_file "T0" sampleV1Record).1.sections
      = sampleV1Record.sections.map (fun s =>
        { s with updated_at := some (s.updated_at.getD "T0")
                 favorite := some (s.favorite.getD false) }) ∧
    (migrate_user_file "T0" sampleV1Record).2 = true :=
  migrate_v1_to_v2 "T0" sampleV1Record (by decide)

/-- Helper: removing the last element of `l ++ [a]` gives back `l`. -/
theorem eraseIdx_concat {α : Type _} (l : List α) (a : α) :
    (l ++ [a]).eraseIdx l.length = l := by
  induction l with
  | nil => rfl
  | cons x xs ih => simp [List.eraseIdx, ih]

/-- **C8** Soft-delete then restore round trip: `delete_{i}` removes the
section at a valid index `i` from `sections`, stamps `deleted_at = t1`
and appends it as the last element of `trash`; restoring that trash
entry removes it from `trash` again, refreshes `updated_at = t2` and
appends it to the end of `sections`; its `title`, `image`, `text` and
`favorite` fields are untouched throughout (both intermediate sections
are record-updates of the original touching only the timestamps). -/
theorem soft_delete_restore_round_trip (r : Record) (i : Nat)
    (h : i < r.sections.length) (t1 t2 : String) :
    ∃ r1 r2,
      delete_callback r (i : Int) t1 = some r1 ∧
      r1.sections = r.sections.eraseIdx i ∧
      r1.trash = some ((r.trash.getD [])
        ++ [{ r.sections.get ⟨i, h⟩ with deleted_at := some t1 }]) ∧
      restore_callback r1 (((r.trash.getD []).length : Nat) : Int) t2 = some r2 ∧
      r2.trash = some (r.trash.getD []) ∧
      r2.sections = r.sections.eraseIdx i
        ++ [{ r.sections.get ⟨i, h⟩ with deleted_at := some t1,
                                         updated_at := some t2 }] := by
  have hg : (0 : Int) ≤ (i : Int) ∧ (i : Int) < (r.sections.length : Int) :=
    ⟨Int.natCast_nonneg i, by exact_mod_cast h⟩
  have hd1 : delete_callback r (i : Int) t1 = some
      { r with sections := r.sections.eraseIdx i
               trash := some ((r.trash.getD [])
                 ++ [{ r.sections.get ⟨i, h⟩ with deleted_at := some t1 }]) } := by
    unfold delete_callback listPop
    rw [if_pos hg]
    simp [List.getElem?_eq_getElem h]
  have hg2 : (0 : Int) ≤ ((r.trash.getD []).length : Int) ∧
      ((r.trash.getD []).length : Int) <
        (((r.trash.getD [])
          ++ [{ r.sections.get ⟨i, h⟩ with deleted_at := some t1 }]).length : Int) := by
    refine ⟨Int.natCast_nonneg _, ?_⟩
    simp
  have hd2 : restore_callback
      { r with sections := r.sections.eraseIdx i
               trash := some ((r.trash.getD [])
                 ++ [{ r.sections.get ⟨i, h⟩ with deleted_at := some t1 }]) }
      (((r.trash.getD []).length : Nat) : Int) t2 = some
      { r with sections := r.sections.eraseIdx i
                 ++ [{ r.sections.get ⟨i, h⟩ with deleted_at := some t1,
                                                  updated_at := some t2 }]
               trash := some (r.trash.getD []) } := by
    unfold restore_callback listPop
    simp only [Option.getD_some]
    rw [if_pos hg2]
    simp [List.getElem?_concat_length, eraseIdx_concat]
  exact ⟨_, _, hd1, rfl, rfl, hd2, rfl, rfl⟩

/-- Witness for `soft_delete_restore_round_trip` on the concrete
one-section record `sampleRecord`. -/
theorem soft_delete_restore_round_trip_witness :
    ∃ r1 r2,
      delete_callback sampleRecord ((0 : Nat) : Int) "T1" = some r1 ∧
      r1.sections = sampleRecord.sections.eraseIdx 0 ∧
      r1.trash = some ((sampleRecord.trash.getD [])
        ++ [{ sampleRecord.sections.get ⟨0, by decide⟩ with
                deleted_at := some "T1" }]) ∧
      restore_callback r1
        (((sampleRecord.trash.getD []).length : Nat) : Int) "T2" = some r2 ∧
      r2.trash = some (sampleRecord.trash.getD []) ∧
      r2.sections = sampleRecord.sections.eraseIdx 0
        ++ [{ sampleRecord.sections.get ⟨0, by decide⟩ with
                deleted_at := some "T1", updated_at := some "T2" }] :=
  soft_delete_restore_round_trip sampleRecord 0 (by decide) "T1" "T2"

/-- **C10** Restore does not clear `deleted_at`: restoring a trash entry
whose `deleted_at` is the non-`none` value `d` appends it to `sections`
with `updated_at` refreshed but `deleted_at` still `some d`, so after a
restore the `sections` list can contain an entry with `deleted_at`
set. -/
theorem restore_keeps_deleted_at (r : Record) (i : Nat)
    (h : i < (r.trash.getD []).length) (d now : String)
    (hd : ((r.trash.getD []).get ⟨i, h⟩).deleted_at = some d) :
    ∃ r2, restore_callback r (i : Int) now = some r2 ∧
      r2.sections.getLast?
        = some { (r.trash.getD []).get ⟨i, h⟩ with updated_at := some now } ∧
      ({ (r.trash.getD []).get ⟨i, h⟩ with
          updated_at := some now } : Section).deleted_at = some d := by
  have hg : (0 : Int) ≤ (i : Int) ∧ (i : Int) < ((r.trash.getD []).length : Int) :=
    ⟨Int.natCast_nonneg i, by exact_mod_cast h⟩
  have hres : restore_callback r (i : Int) now = some
      { r with trash := some ((r.trash.getD []).eraseIdx i)
               sections := r.sections
                 ++ [{ (r.trash.getD []).get ⟨i, h⟩ with updated_at := some now }] } := by
    unfold restore_callback listPop
    rw [if_pos hg]
    simp [List.getElem?_eq_getElem h]
  refine ⟨_, hres, ?_, ?_⟩
  · simp [List.getLast?_concat]
  · simpa using hd

/-- Witness for `restore_keeps_deleted_at` on the concrete record
`sampleTrashRecord` (one trashed section with `deleted_at = "D0"`). -/
theorem restore_keeps_deleted_at_witness :
    ∃ r2, restore_callback sampleTrashRecord ((0 : Nat) : Int) "T2" = some r2 ∧
      r2.sections.getLast?
        = some { (sampleTrashRecord.trash.getD []).get ⟨0, by decide⟩ with
                   updated_at := some "T2" } ∧
      ({ (sampleTrashRecord.trash.getD []).get ⟨0, by decide⟩ with
          updated_at := some "T2" } : Section).deleted_at = some "D0" :=
  restore_keeps_deleted_at sampleTrashRecord 0 (by decide) "D0" "T2" (by decide)

/-- **C2** The restore-upload path: a decoded payload without a
`sections` key makes `restore_receive_file` fail (the raised
`ValueError("Invalid backup format.")` is the spec's `ValidationError`)
with the stored record untouched; with `sections` present, the missing
`schema_version` / `trash` / `settings` keys are filled with the
defaults (current version, `[]`, `{theme: "light"}`) and the resulting
record wholesale replaces the stored one. -/
theorem restore_entity_validation (stored : Record) (p : Payload) :
    (p.sections = none →
      restore_receive_file stored p = (.error "Invalid backup format.", stored)) ∧
    (∀ secs, p.sections = some secs →
      restore_receive_file stored p =
        (.ok { schema_version := some (p.schema_version.getD SCHEMA_VERSION)
               sections := secs
               trash := some (p.trash.getD [])
               settings := some (p.settings.getD { theme := some "light" }) },
          { schema_version := some (p.schema_version.getD SCHEMA_VERSION)
            sections := secs
            trash := some (p.trash.getD [])
            settings := some (p.settings.getD { theme := some "light" }) })) := by
  constructor
  · intro hn
    simp [restore_receive_file, hn]
  · intro secs hs
    simp [restore_receive_file, hs]

/-- Witness for `restore_entity_validation`: a payload missing `sections`
fails and leaves the stored default record unchanged. -/
theorem restore_entity_validation_witness :
    restore_receive_file default_user_structure
        { sections := none, schema_version := none, trash := none, settings := none }
      = (.error "Invalid backup format.", default_user_structure) :=
  (restore_entity_validation default_user_structure
    { sections := none, schema_version := none, trash := none, settings := none }).1 rfl

/-- **C9** Theme toggling only touches the registry (`users.json`): all
per-user data files — including the `settings.theme` each `Record`
carries — are unchanged; registry entries of other users are unchanged;
and for the toggling user only the `settings` of the registry entry
changes (`password` and `logged_in` are preserved). -/
theorem toggle_theme_frame (st : SysState) (uid : Int) :
    (∀ k, (toggle_theme_callback st uid).dataFiles k = st.dataFiles k) ∧
    (∀ k, k ≠ uid → (toggle_theme_callback st uid).users k = st.users k) ∧
    (∀ u, st.users uid = some u →
      ((toggle_theme_callback st uid).users uid).map UserAccount.password
          = some u.password ∧
        ((toggle_theme_callback st uid).users uid).map UserAccount.logged_in
          = some u.logged_in) := by
  refine ⟨fun k => rfl, fun k hk => ?_, fun u hu => ?_⟩
  · simp [toggle_theme_callback, hk]
  · constructor <;> simp [toggle_theme_callback, hu]

/-- Witness for `toggle_theme_frame` on the concrete one-user state
`sampleSysState`. -/
theorem toggle_theme_frame_witness :
    (toggle_theme_callback sampleSysState 7).dataFiles 7
        = sampleSysState.dataFiles 7 ∧
    (toggle_theme_callback sampleSysState 7).users 5 = sampleSysState.users 5 ∧
    ((toggle_theme_callback sampleSysState 7).users 7).map UserAccount.password
        = some sampleAccount.password ∧
    ((toggle_theme_callback sampleSysState 7).users 7).map UserAccount.logged_in
        = some sampleAccount.logged_in :=
  ⟨(toggle_theme_frame sampleSysState 7).1 7,
   (toggle_theme_frame sampleSysState 7).2.1 5 (by decide),
   ((toggle_theme_frame sampleSysState 7).2.2 sampleAccount (by decide)).1,
   ((toggle_theme_frame sampleSysState 7).2.2 sampleAccount (by decide)).2⟩

/-- **C3 (amended)** Index validation: the toggle-favorite, soft-delete,
restore and purge handlers each check `0 ≤ idx < len(collection)`
against the freshly loaded record and, for any other index (negative
ones included), reply with an error and do not touch the stored record.
The update-field path (`edit_apply_message`) performs no such check: it
relies on the `IndexError` raised by the list access, so an index that
is out of range in Python's semantics (`idx ≥ len` or `idx < -len`)
fails with `IndexError` caught before any save — but a negative index
with `-len ≤ idx < 0` resolves to position `len + idx`, mutates that
section and persists the result. -/
theorem index_validation (r : Record) (idx : Int) (now val : String)
    (which : EditField) :
    (¬ (0 ≤ idx ∧ idx < (r.sections.length : Int)) →
      togglefav_callback r idx now = none ∧ delete_callback r idx now = none) ∧
    (¬ (0 ≤ idx ∧ idx < ((r.trash.getD []).length : Int)) →
      restore_callback r idx now = none ∧ purge_callback r idx = none) ∧
    ((r.sections.length : Int) ≤ idx ∨ idx + (r.sections.length : Int) < 0 →
      edit_apply_message r idx which val now = none) ∧
    (idx < 0 → 0 ≤ idx + (r.sections.length : Int) →
      edit_apply_message r idx which val now
          = edit_apply_message r (idx + (r.sections.length : Int)) which val now ∧
        edit_apply_message r idx which val now ≠ none) := by
  refine ⟨fun h => ⟨?_, ?_⟩, fun h => ⟨?_, ?_⟩, fun h => ?_, fun h1 h2 => ?_⟩
  · unfold togglefav_callback; rw [if_neg h]
  · unfold delete_callback; rw [if_neg h]
  · unfold restore_callback; rw [if_neg h]
  · unfold purge_callback; rw [if_neg h]
  · unfold edit_apply_message pyIndex
    rcases h with h | h
    · rw [if_pos (le_trans (Int.natCast_nonneg _) h), if_neg (by omega)]
    · rw [if_neg (by omega), if_neg (by omega)]
  · have hpy1 : pyIndex r.sections.length idx
        = some (idx + (r.sections.length : Int)).toNat := by
      unfold pyIndex
      rw [if_neg (by omega), if_pos h2]
    have hpy2 : pyIndex r.sections.length (idx + (r.sections.length : Int))
        = some (idx + (r.sections.length : Int)).toNat := by
      unfold pyIndex
      rw [if_pos h2, if_pos (by omega)]
    have hj : (idx + (r.sections.length : Int)).toNat < r.sections.length := by
      omega
    constructor
    · unfold edit_apply_message
      rw [hpy1, hpy2]
    · unfold edit_apply_message
      rw [hpy1]
      simp [List.getElem?_eq_getElem hj]

/-- Witness for `index_validation`, exercising every conjunct on
`sampleRecord` (one section, empty trash). -/
theorem index_validation_witness :
    (togglefav_callback sampleRecord 5 "T1" = none ∧
      delete_callback sampleRecord 5 "T1" = none) ∧
    (restore_callback sampleRecord (-2) "T1" = none ∧
      purge_callback sampleRecord (-2) = none) ∧
    edit_apply_message sampleRecord 5 EditField.text "v" "T1" = none ∧
    (edit_apply_message sampleRecord (-1) EditField.text "v" "T1"
        = edit_apply_message sampleRecord (-1 + (sampleRecord.sections.length : Int))
            EditField.text "v" "T1" ∧
      edit_apply_message sampleRecord (-1) EditField.text "v" "T1" ≠ none) :=
  ⟨(index_validation sampleRecord 5 "T1" "v" EditField.text).1 (by decide),
   (index_validation sampleRecord (-2) "T1" "v" EditField.text).2.1 (by decide),
   (index_validation sampleRecord 5 "T1" "v" EditField.text).2.2.1 (Or.inl (by decide)),
   (index_validation sampleRecord (-1) "T1" "v" EditField.text).2.2.2
     (by decide) (by decide)⟩

/-- **C3 counterexample**: the claim says every index-bearing operation
rejects every out-of-bounds index — negative ones included — with
`IndexError` and no mutation.  On a one-section record, the update-field
operation applied at index `-1` (out of the claimed bounds, since
`0 ≤ -1` fails) succeeds: it mutates the last section's title and the
result is persisted, so the stored record is changed, not left
untouched. -/
theorem index_validation_counterexample :
    ¬ (0 ≤ (-1 : Int) ∧ (-1 : Int) < (sampleRecord.sections.length : Int)) ∧
    edit_apply_message sampleRecord (-1) EditField.title "X" "T1"
      = some { sampleRecord with
               sections := [{ sampleSection with title := "X",
                                                 updated_at := some "T1" }] } ∧
    edit_apply_message sampleRecord (-1) EditField.title "X" "T1" ≠ none ∧
    edit_apply_message sampleRecord (-1) EditField.title "X" "T1"
      ≠ some sampleRecord := by
  exact ⟨by decide, by decide, by decide, by decide⟩

/-- Helper: a list is a permutation of its `j`-th element consed onto
the list with that element removed. -/
theorem getElem_cons_eraseIdx_perm {α : Type _} (l : List α) (j : Nat)
    (h : j < l.length) : List.Perm l (l[j] :: l.eraseIdx j) := by
  induction l generalizing j with
  | nil => simp at h
  | cons a as ih =>
    cases j with
    | zero => simp
    | succ n =>
      have hn : n < as.length := by simpa using h
      have h1 : List.Perm (a :: as) (a :: as[n] :: as.eraseIdx n) :=
        (ih n hn).cons a
      have h2 : List.Perm (a :: as[n] :: as.eraseIdx n)
          (as[n] :: a :: as.eraseIdx n) := List.Perm.swap as[n] a _
      simpa using h1.trans h2

/-- Helper: a successful `listPop` splits the list into the popped
element and a permutation-complement. -/
theorem listPop_perm {α : Type _} {l rest : List α} {j : Nat} {x : α}
    (h : listPop l j = some (x, rest)) : List.Perm l (x :: rest) := by
  unfold listPop at h
  rcases Nat.lt_or_ge j l.length with hj | hj
  · rw [List.get?_eq_getElem?, List.getElem?_eq_getElem hj] at h
    cases h
    exact getElem_cons_eraseIdx_perm l j hj
  · rw [List.get?_eq_none.mpr hj] at h
    cases h

/-- Helper: a successful `listPop` returns the `eraseIdx` of the list. -/
theorem listPop_eraseIdx {α : Type _} {l rest : List α} {j : Nat} {x : α}
    (h : listPop l j = some (x, rest)) : rest = l.eraseIdx j := by
  unfold listPop at h
  cases hg : l.get? j with
  | none => rw [hg] at h; cases h
  | some y => rw [hg] at h; cases h; rfl

/-- Adding a section adds exactly one fresh object id. -/
theorem oids_t_add (fresh : Nat) (title : String) (image : Option String)
    (text now : String) (r : TRecord) :
    List.Perm (oids (t_add fresh title image text now r)) (fresh :: oids r) := by
  unfold t_add oids
  simp only [List.map_append, List.map_cons, List.map_nil, List.append_assoc]
  exact List.perm_middle

/-- Soft-delete permutes the object ids (moves one id from `sections`
to `trash`). -/
theorem oids_t_softDelete (r : TRecord) (idx : Int) (now : String) :
    List.Perm (oids (t_softDelete r idx now)) (oids r) := by
  unfold t_softDelete
  split
  · rcases hp : listPop r.sections idx.toNat with _ | ⟨item, rest⟩
    · simp only [hp]
      exact List.Perm.refl _
    · simp only [hp]
      have hperm : List.Perm r.sections (item :: rest) := listPop_perm hp
      have h1 : List.Perm
          ((rest.map TSection.oid ++ r.trash.map TSection.oid) ++ [item.oid])
          (item.oid :: (rest.map TSection.oid ++ r.trash.map TSection.oid)) :=
        List.perm_append_singleton _ _
      have h2 : List.Perm
          (r.sections.map TSection.oid ++ r.trash.map TSection.oid)
          (item.oid :: (rest.map TSection.oid ++ r.trash.map TSection.oid)) :=
        (hperm.map TSection.oid).append_right _
      unfold oids
      simp only [List.map_append, List.map_cons, List.map_nil, List.append_assoc]
      refine List.Perm.trans ?_ h2.symm
      simpa using h1
  · exact List.Perm.refl _

/-- Restore permutes the object ids (moves one id from `trash` back to
`sections`). -/
theorem oids_t_restore (r : TRecord) (idx : Int) (now : String) :
    List.Perm (oids (t_restore r idx now)) (oids r) := by
  unfold t_restore
  split
  · rcases hp : listPop r.trash idx.toNat with _ | ⟨item, rest⟩
    · simp only [hp]
      exact List.Perm.refl _
    · simp only [hp]
      have hperm : List.Perm r.trash (item :: rest) := listPop_perm hp
      have h2 : List.Perm (item.oid :: rest.map TSection.oid)
          (r.trash.map TSection.oid) := (hperm.map TSection.oid).symm
      unfold oids
      simp only [List.map_append, List.map_cons, List.map_nil, List.append_assoc]
      exact h2.append_left (r.sections.map TSection.oid)
  · exact List.Perm.refl _

/-- Purge only removes an object id. -/
theorem oids_t_purge (r : TRecord) (idx : Int) :
    List.Sublist (oids (t_purge r idx)) (oids r) := by
  unfold t_purge
  split
  · rcases hp : listPop r.trash idx.toNat with _ | ⟨item, rest⟩
    · simp only [hp]
      exact List.Sublist.refl _
    · simp only [hp]
      have he : rest = r.trash.eraseIdx idx.toNat := listPop_eraseIdx hp
      unfold oids
      refine List.Sublist.map TSection.oid ?_
      refine List.Sublist.append_left ?_ r.sections
      rw [he]
      exact List.eraseIdx_sublist r.trash idx.toNat
  · exact List.Sublist.refl _

/-- Every lifecycle step preserves well-formedness of the instrumented
state. -/
theorem t_step_WF (st : TRecord × Nat) (op : LOp) (h : WF st) :
    WF (t_step st op) := by
  obtain ⟨hnd, hlt⟩ := h
  cases op with
  | add title image text now =>
    have hp := oids_t_add st.2 title image text now st.1
    constructor
    · refine hp.nodup_iff.mpr (List.nodup_cons.mpr ⟨?_, hnd⟩)
      intro hmem
      exact absurd (hlt _ hmem) (lt_irrefl _)
    · intro n hn
      rcases List.mem_cons.mp (hp.mem_iff.mp hn) with h | h
      · simp [t_step, h]
      · exact Nat.lt_trans (hlt _ h) (Nat.lt_succ_self _)
  | softDelete idx now =>
    have hp := oids_t_softDelete st.1 idx now
    exact ⟨hp.nodup_iff.mpr hnd, fun n hn => hlt n (hp.mem_iff.mp hn)⟩
  | restore idx now =>
    have hp := oids_t_restore st.1 idx now
    exact ⟨hp.nodup_iff.mpr hnd, fun n hn => hlt n (hp.mem_iff.mp hn)⟩
  | purge idx =>
    have hp := oids_t_purge st.1 idx
    exact ⟨hnd.sublist hp, fun n hn => hlt n (hp.subset hn)⟩

/-- Well-formedness is preserved along any sequence of lifecycle calls. -/
theorem t_run_WF (ops : List LOp) (st : TRecord × Nat) (h : WF st) :
    WF (t_run st ops) := by
  induction ops generalizing st with
  | nil => exact h
  | cons op rest ih =>
    have : t_run st (op :: rest) = t_run (t_step st op) rest := rfl
    rw [this]
    exact ih _ (t_step_WF st op h)

/-- **C1** After any sequence of add / soft-delete / restore / purge
calls starting from a well-formed state (object ids pairwise distinct,
as Python dict identities are), no section object is in `sections` and
`trash` at the same time: soft-delete pops the object from `sections`
before appending it to `trash`, and restore pops it from `trash` before
appending it to `sections`, so the id lists stay disjoint. -/
theorem lifecycle_no_dual_membership (st : TRecord × Nat) (h : WF st)
    (ops : List LOp) : oidsDisjoint (t_run st ops).1 := by
  obtain ⟨hnd, -⟩ := t_run_WF ops st h
  intro a ha b hb heq
  rw [oids, List.map_append, List.nodup_append] at hnd
  exact hnd.2.2 (List.mem_map_of_mem TSection.oid ha)
    (heq ▸ List.mem_map_of_mem TSection.oid hb)

/-- Witness for `lifecycle_no_dual_membership`: a concrete run from the
empty record through adds, a soft-delete, a restore and a purge. -/
theorem lifecycle_no_dual_membership_witness :
    oidsDisjoint (t_run (⟨⟨[], []⟩, 0⟩ : TRecord × Nat)
      [LOp.add "A" none "x" "T0", LOp.add "B" none "y" "T1",
       LOp.softDelete 0 "T2", LOp.restore 0 "T3",
       LOp.softDelete 1 "T4", LOp.purge 0]).1 :=
  lifecycle_no_dual_membership _ ⟨by decide, by decide⟩ _

/-- **C4 (amended)** The code takes no per-key lock, so serialization of
read-modify-write cycles is a property of the schedule, not of the
store: when the two cycles on the same key do not interleave (schedule
`[0,0,1,1]`), both mutations are applied (`g ∘ f`) and other keys are
untouched; and two cycles on distinct keys never affect each other's
record even when fully interleaved (schedule `[0,1,0,1]`). -/
theorem per_key_serialization (store : Store) (k1 k2 : Int)
    (f g : Record → Record) :
    ((runSched store [⟨k1, f, none, false⟩, ⟨k1, g, none, false⟩]
        [0, 0, 1, 1]).1 k1 = g (f (store k1))) ∧
    (∀ k, k ≠ k1 →
      (runSched store [⟨k1, f, none, false⟩, ⟨k1, g, none, false⟩]
        [0, 0, 1, 1]).1 k = store k) ∧
    (k1 ≠ k2 →
      (runSched store [⟨k1, f, none, false⟩, ⟨k2, g, none, false⟩]
          [0, 1, 0, 1]).1 k1 = f (store k1) ∧
        (runSched store [⟨k1, f, none, false⟩, ⟨k2, g, none, false⟩]
          [0, 1, 0, 1]).1 k2 = g (store k2)) := by
  refine ⟨?_, fun k hk => ?_, fun hne => ⟨?_, ?_⟩⟩
  · simp [runSched, taskStep]
  · simp [runSched, taskStep, hk]
  · simp [runSched, taskStep, hne, hne.symm]
  · simp [runSched, taskStep, hne, hne.symm]

/-- Witness for `per_key_serialization` with concrete keys, a concrete
store and two concrete `add_text` mutations. -/
theorem per_key_serialization_witness :
    ((runSched (fun _ => default_user_structure)
        [⟨1, add_text "A" none "a" "TA", none, false⟩,
         ⟨1, add_text "B" none "b" "TB", none, false⟩] [0, 0, 1, 1]).1 1
      = add_text "B" none "b" "TB"
          (add_text "A" none "a" "TA" default_user_structure)) ∧
    ((runSched (fun _ => default_user_structure)
        [⟨1, add_text "A" none "a" "TA", none, false⟩,
         ⟨1, add_text "B" none "b" "TB", none, false⟩] [0, 0, 1, 1]).1 5
      = default_user_structure) ∧
    ((runSched (fun _ => default_user_structure)
        [⟨1, add_text "A" none "a" "TA", none, false⟩,
         ⟨2, add_text "B" none "b" "TB", none, false⟩] [0, 1, 0, 1]).1 1
      = add_text "A" none "a" "TA" default_user_structure) ∧
    ((runSched (fun _ => default_user_structure)
        [⟨1, add_text "A" none "a" "TA", none, false⟩,
         ⟨2, add_text "B" none "b" "TB", none, false⟩] [0, 1, 0, 1]).1 2
      = add_text "B" none "b" "TB" default_user_structure) :=
  ⟨(per_key_serialization (fun _ => default_user_structure) 1 2
      (add_text "A" none "a" "TA") (add_text "B" none "b" "TB")).1,
   (per_key_serialization (fun _ => default_user_structure) 1 2
      (add_text "A" none "a" "TA") (add_text "B" none "b" "TB")).2.1 5 (by decide),
   ((per_key_serialization (fun _ => default_user_structure) 1 2
      (add_text "A" none "a" "TA") (add_text "B" none "b" "TB")).2.2 (by decide)).1,
   ((per_key_serialization (fun _ => default_user_structure) 1 2
      (add_text "A" none "a" "TA") (add_text "B" none "b" "TB")).2.2 (by decide)).2⟩

/-- **C4 counterexample**: there is no per-key mutual exclusion in the
code, so the fully interleaved schedule `[0,1,0,1]` of two
read-modify-write cycles on the same key `7` (both tasks `load`, then
both `save`) loses one update: starting from the default record, each
task appends one section, yet the final record holds 1 section, not the
2 the claim promises for N = 2 applied mutations. -/
theorem lost_update_counterexample :
    ((runSched (fun _ => default_user_structure)
        [⟨7, add_text "A" none "a" "TA", none, false⟩,
         ⟨7, add_text "B" none "b" "TB", none, false⟩]
        [0, 1, 0, 1]).1 7).sections.length = 1 ∧
    ¬ ((runSched (fun _ => default_user_structure)
        [⟨7, add_text "A" none "a" "TA", none, false⟩,
         ⟨7, add_text "B" none "b" "TB", none, false⟩]
        [0, 1, 0, 1]).1 7).sections.length = 2 :=
  ⟨by decide, by decide⟩

/-- Helper: two suffixes of the same list are suffix-comparable by
length. -/
theorem isSuffix_of_isSuffix_length_le {α : Type _} {l1 l2 l3 : List α}
    (h1 : List.IsSuffix l1 l3) (h2 : List.IsSuffix l2 l3)
    (hle : l1.length ≤ l2.length) : List.IsSuffix l1 l2 := by
  have p1 := List.reverse_prefix.mpr h1
  have p2 := List.reverse_prefix.mpr h2
  have p3 := List.prefix_of_prefix_length_le p1 p2 (by simpa)
  exact List.reverse_prefix.mp p3

/-- Helper: no per-user data file path (`data/<uid>.json`) ends in
`.corrupt.bak`. -/
theorem user_data_path_not_bak (uid : String) :
    ¬ strEndsWith (user_data_path uid) ".corrupt.bak" := by
  intro hsuf
  have hj : List.IsSuffix ".json".data (user_data_path uid).data := by
    unfold user_data_path
    rw [String.data_append]
    exact List.suffix_append _ _
  have h2 : List.IsSuffix ".json".data ".corrupt.bak".data :=
    isSuffix_of_isSuffix_length_le hj hsuf (by decide)
  exact absurd h2 (by decide)

/-- **C7** When a user file fails to decode, `migrate_user_file` moves
it aside to the sidecar path `<path>.corrupt.bak` (preserving the bad
bytes) and re-creates the path with a freshly built default record at
the current schema version; the failure is handled inside the function
(it returns a filesystem, raising nothing).  Moreover the sidecar is
never auto-deleted: the only file-removing operation in the source,
the admin per-user delete, leaves every path ending in `.corrupt.bak`
untouched. -/
theorem corrupt_quarantine (fs : FS) (path raw now : String)
    (h : fs path = some (FileContent.corrupt raw)) :
    (migrate_user_file_fs now fs path) (path ++ ".corrupt.bak")
        = some (FileContent.corrupt raw) ∧
    (migrate_user_file_fs now fs path) path
        = some (FileContent.valid default_user_structure) ∧
    default_user_structure.schema_version = some SCHEMA_VERSION ∧
    (∀ (fs2 : FS) (uid q : String), strEndsWith q ".corrupt.bak" →
      admin_delete_user fs2 uid q = fs2 q) := by
  have hlen : (".corrupt.bak" : String).length = 12 := rfl
  have hne : path ++ ".corrupt.bak" ≠ path := by
    intro he
    have hl := congrArg String.length he
    rw [String.length_append, hlen] at hl
    omega
  refine ⟨?_, ?_, rfl, ?_⟩
  · simp only [migrate_user_file_fs, h, fsWrite, fsMove]
    simp [hne]
  · simp only [migrate_user_file_fs, h, fsWrite]
    simp
  · intro fs2 uid q hq
    simp only [admin_delete_user, fsRemove]
    rw [if_neg ?_]
    intro he
    exact user_data_path_not_bak uid (he ▸ hq)

/-- Witness for `corrupt_quarantine` on a one-file directory holding
undecodable bytes, plus a concrete `.corrupt.bak` path surviving the
admin delete. -/
theorem corrupt_quarantine_witness :
    (migrate_user_file_fs "T0" corruptFS "data/1.json")
        ("data/1.json" ++ ".corrupt.bak")
        = some (FileContent.corrupt "oops") ∧
    (migrate_user_file_fs "T0" corruptFS "data/1.json") "data/1.json"
        = some (FileContent.valid default_user_structure) ∧
    default_user_structure.schema_version = some SCHEMA_VERSION ∧
    admin_delete_user (fun _ => none) "1" "data/2.json.corrupt.bak"
      = (fun _ => (none : Option FileContent)) "data/2.json.corrupt.bak" :=
  ⟨(corrupt_quarantine corruptFS "data/1.json" "oops" "T0" (by decide)).1,
   (corrupt_quarantine corruptFS "data/1.json" "oops" "T0" (by decide)).2.1,
   (corrupt_quarantine corruptFS "data/1.json" "oops" "T0" (by decide)).2.2.1,
   (corrupt_quarantine corruptFS "data/1.json" "oops" "T0" (by decide)).2.2.2
     (fun _ => none) "1" "data/2.json.corrupt.bak"
     ⟨"data/2.json".data, by decide⟩⟩

/-- **C5 counterexample**: the claim says the migrated record always has
`settings.theme` present with default `"light"`, but the code only does
`data.setdefault("settings", {"theme": "light"})`: on a v1 record whose
`settings` object exists without a `theme` key, migration leaves `theme`
absent. -/
theorem migrate_theme_counterexample :
    ((1 : Int) < 2) ∧
    (migrate_user_file "T0"
        { schema_version := some 1, sections := [], trash := none
          settings := some { theme := none } }).1.settings
      = some { theme := none } ∧
    (migrate_user_file "T0"
        { schema_version := some 1, sections := [], trash := none
          settings := some { theme := none } }).1.settings
      ≠ some { theme := some "light" } := by
  refine ⟨by decide, by decide, by decide⟩

end Bot
